import Mathlib

/-!
# Verification of `render_book_plot.py`

A shallow embedding of the decision-tracker pipeline
(`build_delta_frame` and `render_plot` in `src/render_book_plot.py`)
together with proofs about the claims of the specification.

Conventions of the embedding:
* SQL integers are `Int` (the `count` column) or `Nat` (identifiers and
  epoch-millisecond timestamps, which are non-negative in this domain);
* a calendar day is its number of days since the Unix epoch (`ts / 86400000`,
  the effect of `ts.dt.floor("D")` on a UTC millisecond timestamp);
* the database is the five joined tables; the `JOIN` of the query is the
  corresponding nested `flatMap`/`filter`;
* the `ORDER BY` clause of the query only fixes the order of the rows handed
  to pandas.  Every later stage of the pipeline (`groupby` + `sum`, `pivot`)
  is order-insensitive — pandas sorts group keys, pivot index and pivot
  columns itself — so the embedding leaves the filtered rows unsorted and
  instead proves order-independence where the claims ask for it;
* `pandas.pivot` (via `unstack`) sorts the row index and the columns
  ascending; the embedding builds them with `List.insertionSort` over the
  deduplicated keys;
* `DataFrame.diff()` followed by `.fillna(first-row)` is `diffSeed`:
  pairwise difference down a column with the first entry kept as is.
-/

namespace RenderBookPlot

/-- One row of the `decisions` table (columns used by the query). -/
structure Decision where
  id : Nat
  count : Int
  country : Nat
  dateId : Nat
  institution : Nat
  caseType : Nat
  decisionMarker : Nat
deriving DecidableEq, Repr

/-- One row of the `updates` table. -/
structure Update where
  dateId : Nat
  timestamp : Nat
  dataUpdated : Bool
deriving DecidableEq, Repr

/-- One row of the `institution` table. -/
structure Institution where
  id : Nat
  name : String
deriving DecidableEq, Repr

/-- One row of the `caseType` table. -/
structure CaseType where
  id : Nat
  type : String
deriving DecidableEq, Repr

/-- One row of the `decisionMarker` table. -/
structure DecisionMarker where
  id : Nat
  description : String
deriving DecidableEq, Repr

/-- The `tracker.db` database: the five tables touched by the query. -/
structure Database where
  decisions : List Decision
  updates : List Update
  institutions : List Institution
  caseTypes : List CaseType
  decisionMarkers : List DecisionMarker
deriving DecidableEq, Repr

/-- One row of the query result (the `SELECT` list of `build_delta_frame`,
plus `inst_id`, which the `WHERE` clause reads as `it.id`). -/
structure QRow where
  decision_id : Nat
  count : Int
  country : Nat
  ts : Nat
  dataUpdated : Bool
  institution : String
  inst_id : Nat
  case_type : String
  decision_marker : String
deriving DecidableEq, Repr

/-- Milliseconds in one day. -/
def msPerDay : Nat := 86400000

/-- Gregorian leap-year test. -/
def isLeap (y : Nat) : Bool := (y % 4 == 0 && y % 100 != 0) || y % 400 == 0

/-- Days in the calendar year `y`. -/
def daysInYear (y : Nat) : Nat := if isLeap y then 366 else 365

/-- Days from the Unix epoch to 00:00 UTC, January 1 of year `y`
(`y ≥ 1970`; the embedding is not used below the epoch). -/
def daysToYear (y : Nat) : Nat := ((List.range' 1970 (y - 1970)).map daysInYear).sum

/-- Lines 16 and 17 of the source, `int(pd.Timestamp(..., tz="UTC").timestamp() * 1000)`
applied to January 1 of year `y`: the UTC epoch-millisecond instant of the
start of the year. -/
def yearStartMs (y : Nat) : Nat := daysToYear y * msPerDay

/-- The `FROM`/`JOIN` part of the query: every combination of a decision with
its matching update, institution, case type and decision marker row. -/
def joinRows (db : Database) : List QRow :=
  db.decisions.flatMap fun d =>
    (db.updates.filter fun u => u.dateId == d.dateId).flatMap fun u =>
      (db.institutions.filter fun it => it.id == d.institution).flatMap fun it =>
        (db.caseTypes.filter fun ct => ct.id == d.caseType).flatMap fun ct =>
          (db.decisionMarkers.filter fun dm => dm.id == d.decisionMarker).map fun dm =>
            { decision_id := d.id
              count := d.count
              country := d.country
              ts := u.timestamp
              dataUpdated := u.dataUpdated
              institution := it.name
              inst_id := it.id
              case_type := ct.type
              decision_marker := dm.description }

/-- The `WHERE` clause: the half-open time window `[start_ms, end_ms)`
and the fixed country / case-type / institution filters. -/
def rowMatches (start_ms end_ms : Nat) (r : QRow) : Bool :=
  decide (start_ms ≤ r.ts) && decide (r.ts < end_ms) &&
    (r.country == 241) && (r.case_type == "Ochrona międzynarodowa") &&
    (r.inst_id == 1516 || r.inst_id == 810)

/-- The query result of `pd.read_sql_query` in `build_delta_frame`: the joined rows restricted to
the year's half-open window and the fixed filters (row order irrelevant to
all later stages, see the module comment). -/
def queryRows (db : Database) (year : Nat) : List QRow :=
  (joinRows db).filter (rowMatches (yearStartMs year) (yearStartMs (year + 1)))

/-- The UTC day bucket of a row: `df["date"] = df["ts"].dt.floor("D")`. -/
def dayOf (r : QRow) : Nat := r.ts / msPerDay

/-- The distinct decision-marker labels, ascending — the column universe of
the pivot. -/
def markersOf (rows : List QRow) : List String :=
  List.insertionSort (· ≤ ·) (rows.map (·.decision_marker)).dedup

/-- The distinct day buckets of the rows of one marker, ascending — one
group of `daily` after `sort_values(["decision_marker", "date"])`. -/
def datesFor (rows : List QRow) (m : String) : List Nat :=
  List.insertionSort (· ≤ ·)
    (((rows.filter fun r => r.decision_marker == m).map dayOf).dedup)

/-- The value of `df.groupby(["date", "decision_marker"])["count"].sum()` at one key. -/
def dailySum (rows : List QRow) (d : Nat) (m : String) : Int :=
  ((rows.filter fun r => r.decision_marker == m && dayOf r == d).map (·.count)).sum

/-- Running cumulative sum (`groupby("decision_marker")["count"].cumsum()`
along one group, which is sorted by date). -/
def cumul : List Int → List Int
  | [] => []
  | x :: xs => x :: (cumul xs).map (x + ·)

/-- Tail of `diffSeed`: pairwise difference against the previous element. -/
def diffAux : Int → List Int → List Int
  | _, [] => []
  | prev, y :: ys => (y - prev) :: diffAux y ys

/-- The effect of `s.diff().fillna(s)` down one column: day-over-day first difference with
the first entry seeded by its own value. -/
def diffSeed : List Int → List Int
  | [] => []
  | x :: xs => x :: diffAux x xs

/-- The `delta` column of `daily` restricted to marker `m` (lines 57–58 of
the source): first difference of the running cumulative sum of the per-day
sums, first day seeded with its own cumulative value. -/
def deltaColOf (rows : List QRow) (m : String) : List Int :=
  diffSeed (cumul ((datesFor rows m).map fun d => dailySum rows d m))

/-- The row index of `daily.pivot(...)`: the distinct day buckets of all
rows, ascending (pandas `pivot` sorts the index). -/
def allDates (rows : List QRow) : List Nat :=
  List.insertionSort (· ≤ ·) ((rows.map dayOf).dedup)

/-- One cell of `daily.pivot(index="date", columns="decision_marker",
values="delta").fillna(0)`: the `delta` value when the (day, marker)
combination exists in `daily`, else the `fillna` value 0. -/
def pivotCell (rows : List QRow) (d : Nat) (m : String) : Int :=
  if d ∈ datesFor rows m then (deltaColOf rows m).getD ((datesFor rows m).indexOf d) 0
  else 0

/-- One column of `pivot.diff().fillna(pivot)` (line 61): the table-wide
day-over-day first difference down the pivot's (sparse) index, first row
seeded with its own value. -/
def stepCol (rows : List QRow) (m : String) : List Int :=
  diffSeed ((allDates rows).map fun d => pivotCell rows d m)

/-- One cell of the diffed table, addressed by day: defined on the pivot's
own index; days absent from the pivot only appear later, when
`asfreq("D", fill_value=0)` (line 67) inserts them as 0. -/
def diffedCell (rows : List QRow) (d : Nat) (m : String) : Int :=
  if d ∈ allDates rows then (stepCol rows m).getD ((allDates rows).indexOf d) 0
  else 0

/-- The delta table: dense day index, marker columns, and one row of cells
per day (aligned with `cols`). -/
structure DeltaTable where
  dates : List Nat
  cols : List String
  values : List (List Int)
deriving DecidableEq, Repr

/-- The empty table `pd.DataFrame()` returned for an empty query result. -/
def DeltaTable.empty : DeltaTable := ⟨[], [], []⟩

/-- Lines 45–71 of the source: the whole pandas pipeline applied to the
fetched rows.  `asfreq("D", fill_value=0)` densifies the index to every day
of `[min, max]` after the table-wide diff, and `clip(lower=0)` is the final
elementwise `max · 0`. -/
def buildDeltaFromRows (rows : List QRow) : DeltaTable :=
  if rows.isEmpty then DeltaTable.empty
  else
    let lo := (allDates rows).headD 0
    let hi := (allDates rows).getLastD 0
    let dts := List.range' lo (hi + 1 - lo)
    ⟨dts, markersOf rows,
      dts.map fun d => (markersOf rows).map fun m => max (diffedCell rows d m) 0⟩

/-- The whole of `build_delta_frame(conn, year)`: query then pipeline. -/
def buildDeltaFrame (db : Database) (year : Nat) : DeltaTable :=
  buildDeltaFromRows (queryRows db year)

/-- One chart panel of `render_plot`: its title and y-limits (the chart
properties the specification talks about). -/
structure Panel where
  title : Option String
  ylimBottom : Int
  ylimTop : Int
deriving DecidableEq, Repr

/-- The value `float(delta.max().max()) if not delta.empty else 0`: the global maximum
cell value (0 for the empty table).  Cell values are integers (integer SQL
counts through sums and differences), so `math.ceil` is the identity on
them and is not re-applied here. -/
def overallMax (t : DeltaTable) : Int :=
  match t.values.flatten with
  | [] => 0
  | x :: xs => xs.foldl max x

/-- The bound `max(1, int(math.ceil(overall_max))) + 1` (lines 77 and 98). -/
def overallTop (t : DeltaTable) : Int := max 1 (overallMax t) + 1

/-- The error raised at line 90: with zero category columns,
`plt.subplots(nrows=1, ncols=1)` returns a single `Axes` object (not an
array), `isinstance(axes, (list, tuple))` is false, and `list(axes)` on a
non-iterable `Axes` raises `TypeError`. -/
def axesNotIterableMsg : String := "TypeError: Axes object is not iterable"

/-- The chart of `render_plot(delta, title=...)`: the overview panel followed by one
panel per category column, every panel sharing `ylim(bottom=0,
top=overall_top)`; per-category panels are titled with their column label,
the overview with the optional `title` argument.  With zero columns the
function raises before any panel is created (see `axesNotIterableMsg`). -/
def renderPlot (t : DeltaTable) (title : Option String) : Except String (List Panel) :=
  if t.cols.isEmpty then Except.error axesNotIterableMsg
  else
    Except.ok
      ({ title := title, ylimBottom := 0, ylimTop := overallTop t } ::
        t.cols.map fun c => { title := some c, ylimBottom := 0, ylimTop := overallTop t })

/-- The per-column action of the step-5 table-wide difference together with
the step-6 clipping: `pivot.diff().fillna(pivot)` (line 61) followed by
`clip(lower=0)` (line 69) down a single column. -/
def tableDiffClip (xs : List Int) : List Int := (diffSeed xs).map fun v => max v 0

/-- The variant of the pipeline described by the specification's step 4:
the pivot is reindexed to the full dense daily range (missing days filled
with 0) BEFORE the table-wide difference of step 5 is taken.  It is a
comparison definition following the specification's words; the source
applies `asfreq` only after the diff. -/
def buildDeltaDenseFirst (rows : List QRow) : DeltaTable :=
  if rows.isEmpty then DeltaTable.empty
  else
    let lo := (allDates rows).headD 0
    let hi := (allDates rows).getLastD 0
    let dts := List.range' lo (hi + 1 - lo)
    ⟨dts, markersOf rows,
      dts.map fun d => (markersOf rows).map fun m =>
        max ((diffSeed (dts.map fun e => pivotCell rows e m)).getD (dts.indexOf d) 0) 0⟩

/-- A query-result row with the fixed filter values of the `WHERE` clause. -/
def mkRow (ts : Nat) (cnt : Int) (m : String) : QRow :=
  { decision_id := 0
    count := cnt
    country := 241
    ts := ts
    dataUpdated := false
    institution := "UdSC"
    inst_id := 1516
    case_type := "Ochrona międzynarodowa"
    decision_marker := m }

/-- The specification's worked example: one category, five consecutive
days, per-day summed counts `[5, 5, 8, 8, 8]`. -/
def c2Rows : List QRow :=
  [mkRow 0 5 "granted", mkRow 86400000 5 "granted", mkRow 172800000 8 "granted",
    mkRow 259200000 8 "granted", mkRow 345600000 8 "granted"]

/-- One category with data on day 0 and day 2, nothing on day 1 — a gap in
the middle of the date range. -/
def c3Rows : List QRow := [mkRow 0 5 "m", mkRow 172800000 8 "m"]

/-- A database with no rows at all, so every query result is empty. -/
def emptyDb : Database := ⟨[], [], [], [], []⟩

/-- A small database: two matching decisions on days 10 and 12 of 2026
(day 11 has no rows), the second with a negative count (a data
correction). -/
def sampleDb : Database :=
  { decisions :=
      [⟨1, 5, 241, 1, 1516, 7, 3⟩, ⟨2, -4, 241, 2, 810, 7, 3⟩]
    updates :=
      [⟨1, yearStartMs 2026 + 10 * msPerDay, false⟩,
        ⟨2, yearStartMs 2026 + 12 * msPerDay, true⟩]
    institutions := [⟨1516, "UdSC"⟩, ⟨810, "RdSU"⟩]
    caseTypes := [⟨7, "Ochrona międzynarodowa"⟩]
    decisionMarkers := [⟨3, "umorzenie"⟩] }

/-- A copy of `sampleDb` with every `dataUpdated` flag flipped and nothing else
changed. -/
def sampleDbFlipped : Database :=
  { sampleDb with
    updates :=
      [⟨1, yearStartMs 2026 + 10 * msPerDay, true⟩,
        ⟨2, yearStartMs 2026 + 12 * msPerDay, false⟩] }

/-- A database whose two matching decisions sit exactly on the 2026 and the
2027 year-start instants. -/
def boundaryDb : Database :=
  { decisions :=
      [⟨1, 2, 241, 1, 1516, 7, 3⟩, ⟨2, 3, 241, 2, 1516, 7, 3⟩]
    updates := [⟨1, yearStartMs 2026, false⟩, ⟨2, yearStartMs 2027, false⟩]
    institutions := [⟨1516, "UdSC"⟩, ⟨810, "RdSU"⟩]
    caseTypes := [⟨7, "Ochrona międzynarodowa"⟩]
    decisionMarkers := [⟨3, "umorzenie"⟩] }

/-- The joined row of `boundaryDb` timestamped exactly at the 2026
year-start instant. -/
def boundaryRowIn : QRow :=
  { decision_id := 1
    count := 2
    country := 241
    ts := yearStartMs 2026
    dataUpdated := false
    institution := "UdSC"
    inst_id := 1516
    case_type := "Ochrona międzynarodowa"
    decision_marker := "umorzenie" }

/-- The joined row of `boundaryDb` timestamped exactly at the 2027
year-start instant. -/
def boundaryRowOut : QRow :=
  { decision_id := 2
    count := 3
    country := 241
    ts := yearStartMs 2027
    dataUpdated := false
    institution := "UdSC"
    inst_id := 1516
    case_type := "Ochrona międzynarodowa"
    decision_marker := "umorzenie" }

/-- An `updates` row with its `dataUpdated` flag cleared. -/
def scrubU (u : Update) : Update := { u with dataUpdated := false }

/-- A query-result row with its `dataUpdated` column cleared. -/
def scrub (r : QRow) : QRow := { r with dataUpdated := false }

section ListHelpers

lemma diffAux_length (p : Int) (l : List Int) : (diffAux p l).length = l.length := by
  induction l generalizing p with
  | nil => rfl
  | cons y ys ih => simp [diffAux, ih]

lemma diffSeed_length (l : List Int) : (diffSeed l).length = l.length := by
  cases l with
  | nil => rfl
  | cons x xs => simp [diffSeed, diffAux_length]

lemma diffAux_getD (l : List Int) : ∀ (p : Int) (i : Nat), i < l.length →
    (diffAux p l).getD i 0 = l.getD i 0 - (p :: l).getD i 0 := by
  induction l with
  | nil => intro p i h; simp at h
  | cons y ys ih =>
    intro p i h
    cases i with
    | zero => simp [diffAux]
    | succ j =>
      have hj : j < ys.length := by simpa using h
      simpa [diffAux] using ih y j hj

lemma diffSeed_getD_succ (xs : List Int) (i : Nat) (h : i + 1 < xs.length) :
    (diffSeed xs).getD (i + 1) 0 = xs.getD (i + 1) 0 - xs.getD i 0 := by
  cases xs with
  | nil => simp at h
  | cons x rest =>
    have hi : i < rest.length := by simpa using h
    simp only [diffSeed, List.getD_cons_succ]
    exact diffAux_getD rest x i hi

lemma getD_map {α β : Type} (f : α → β) (l : List α) (i : Nat) (h : i < l.length)
    (a : α) (b : β) : (l.map f).getD i b = f (l.getD i a) := by
  induction l generalizing i with
  | nil => simp at h
  | cons x xs ih =>
    cases i with
    | zero => simp
    | succ j => simpa using ih j (by simpa using h)

lemma getD_eq_getElem {α : Type} (l : List α) (i : Nat) (h : i < l.length)
    (d : α) : l.getD i d = l[i] := by
  rw [List.getD_eq_getElem?_getD, List.getElem?_eq_getElem h]
  rfl

lemma headD_mem {l : List Nat} (h : l ≠ []) : l.headD 0 ∈ l := by
  cases l with
  | nil => exact absurd rfl h
  | cons x xs => simp

lemma headD_le_of_sorted {l : List Nat} (hs : l.Sorted (· ≤ ·)) {x : Nat}
    (hx : x ∈ l) : l.headD 0 ≤ x := by
  cases l with
  | nil => simp at hx
  | cons y ys =>
    rcases List.mem_cons.1 hx with rfl | hx2
    · simp
    · simpa using List.rel_of_sorted_cons hs x hx2

lemma getLastD_eq_getLast {l : List Nat} (h : l ≠ []) (d : Nat) :
    l.getLastD d = l.getLast h := by
  rw [List.getLastD_eq_getLast?, List.getLast?_eq_getLast l h]
  rfl

lemma getLastD_mem {l : List Nat} (h : l ≠ []) : l.getLastD 0 ∈ l := by
  rw [getLastD_eq_getLast h]
  exact List.getLast_mem h

lemma le_getLast_of_sorted {l : List Nat} (hs : l.Sorted (· ≤ ·)) {x : Nat}
    (hx : x ∈ l) (h : l ≠ []) : x ≤ l.getLast h := by
  induction l with
  | nil => simp at hx
  | cons y ys ih =>
    cases ys with
    | nil =>
      have : x = y := by simpa using hx
      simp [this, List.getLast]
    | cons z zs =>
      rw [List.getLast_cons (by simp)]
      rcases List.mem_cons.1 hx with rfl | hx2
      · exact List.rel_of_sorted_cons hs _ (List.getLast_mem (by simp))
      · exact ih hs.of_cons hx2 (by simp)

lemma le_getLastD_of_sorted {l : List Nat} (hs : l.Sorted (· ≤ ·)) {x : Nat}
    (hx : x ∈ l) (h : l ≠ []) : x ≤ l.getLastD 0 := by
  rw [getLastD_eq_getLast h]
  exact le_getLast_of_sorted hs hx h

end ListHelpers

section AllDatesFacts

lemma allDates_sorted (rows : List QRow) : (allDates rows).Sorted (· ≤ ·) :=
  List.sorted_insertionSort _ _

lemma allDates_perm (rows : List QRow) :
    List.Perm (allDates rows) ((rows.map dayOf).dedup) :=
  List.perm_insertionSort _ _

lemma mem_allDates {rows : List QRow} {d : Nat} :
    d ∈ allDates rows ↔ d ∈ rows.map dayOf := by
  rw [(allDates_perm rows).mem_iff, List.mem_dedup]

lemma allDates_nodup (rows : List QRow) : (allDates rows).Nodup :=
  ((allDates_perm rows).nodup_iff).2 (List.nodup_dedup _)

lemma allDates_ne_nil {rows : List QRow} (h : rows ≠ []) : allDates rows ≠ [] := by
  intro hnil
  rcases List.exists_mem_of_ne_nil rows h with ⟨r, hr⟩
  have : dayOf r ∈ allDates rows := mem_allDates.2 (List.mem_map_of_mem dayOf hr)
  simp [hnil] at this

end AllDatesFacts

section ScrubFacts

@[simp] lemma scrubU_dateId (u : Update) : (scrubU u).dateId = u.dateId := rfl

@[simp] lemma scrubU_timestamp (u : Update) : (scrubU u).timestamp = u.timestamp := rfl

@[simp] lemma scrub_marker (r : QRow) : (scrub r).decision_marker = r.decision_marker := rfl

@[simp] lemma scrub_count (r : QRow) : (scrub r).count = r.count := rfl

@[simp] lemma scrub_ts (r : QRow) : (scrub r).ts = r.ts := rfl

@[simp] lemma dayOf_scrub (r : QRow) : dayOf (scrub r) = dayOf r := rfl

lemma filter_map_scrub (rows : List QRow) (p : QRow → Bool)
    (hp : ∀ r, p (scrub r) = p r) :
    (rows.map scrub).filter p = (rows.filter p).map scrub := by
  rw [List.filter_map]
  congr 1
  exact List.filter_congr fun r _ => hp r

lemma map_proj_scrub {α : Type} (rows : List QRow) (f : QRow → α)
    (hf : ∀ r, f (scrub r) = f r) : (rows.map scrub).map f = rows.map f := by
  rw [List.map_map]
  exact List.map_congr_left fun r _ => hf r

lemma markersOf_scrub (rows : List QRow) :
    markersOf (rows.map scrub) = markersOf rows := by
  unfold markersOf
  rw [map_proj_scrub rows (·.decision_marker) fun _ => rfl]

lemma datesFor_scrub (rows : List QRow) (m : String) :
    datesFor (rows.map scrub) m = datesFor rows m := by
  unfold datesFor
  rw [filter_map_scrub rows (fun r => r.decision_marker == m) fun _ => rfl,
    map_proj_scrub (rows.filter fun r => r.decision_marker == m) dayOf fun _ => rfl]

lemma dailySum_scrub (rows : List QRow) (d : Nat) (m : String) :
    dailySum (rows.map scrub) d m = dailySum rows d m := by
  unfold dailySum
  rw [filter_map_scrub rows (fun r => r.decision_marker == m && dayOf r == d)
      fun _ => rfl,
    map_proj_scrub (rows.filter fun r => r.decision_marker == m && dayOf r == d)
      (·.count) fun _ => rfl]

lemma allDates_scrub (rows : List QRow) :
    allDates (rows.map scrub) = allDates rows := by
  unfold allDates
  rw [map_proj_scrub rows dayOf fun _ => rfl]

lemma deltaColOf_scrub (rows : List QRow) (m : String) :
    deltaColOf (rows.map scrub) m = deltaColOf rows m := by
  unfold deltaColOf
  rw [datesFor_scrub]
  exact congrArg (fun l => diffSeed (cumul l))
    (List.map_congr_left fun d _ => dailySum_scrub rows d m)

lemma pivotCell_scrub (rows : List QRow) (d : Nat) (m : String) :
    pivotCell (rows.map scrub) d m = pivotCell rows d m := by
  unfold pivotCell
  rw [datesFor_scrub, deltaColOf_scrub]

lemma stepCol_scrub (rows : List QRow) (m : String) :
    stepCol (rows.map scrub) m = stepCol rows m := by
  unfold stepCol
  rw [allDates_scrub]
  exact congrArg diffSeed
    (List.map_congr_left fun d _ => pivotCell_scrub rows d m)

lemma diffedCell_scrub (rows : List QRow) (d : Nat) (m : String) :
    diffedCell (rows.map scrub) d m = diffedCell rows d m := by
  unfold diffedCell
  rw [allDates_scrub, stepCol_scrub]

lemma buildDeltaFromRows_scrub (rows : List QRow) :
    buildDeltaFromRows (rows.map scrub) = buildDeltaFromRows rows := by
  have hie : (rows.map scrub).isEmpty = rows.isEmpty := by cases rows <;> rfl
  simp only [buildDeltaFromRows, hie, allDates_scrub, markersOf_scrub,
    diffedCell_scrub]

lemma rowMatches_scrub (s e : Nat) (r : QRow) :
    rowMatches s e (scrub r) = rowMatches s e r := rfl

lemma join_map_scrub (db : Database) :
    (joinRows db).map scrub =
      joinRows ⟨db.decisions, db.updates.map scrubU, db.institutions,
        db.caseTypes, db.decisionMarkers⟩ := by
  unfold joinRows
  simp only [List.map_flatMap]
  refine congrArg db.decisions.flatMap (funext fun d => ?_)
  have hfilter : (db.updates.map scrubU).filter (fun u => u.dateId == d.dateId) =
      (db.updates.filter fun u => u.dateId == d.dateId).map scrubU := by
    rw [List.filter_map]
    congr 1
  rw [hfilter, List.flatMap_map]
  simp only [List.map_map]
  rfl

end ScrubFacts

section YearFacts

lemma daysInYear_pos (y : Nat) : 0 < daysInYear y := by
  unfold daysInYear
  split <;> omega

lemma daysToYear_succ {y : Nat} (h : 1970 ≤ y) :
    daysToYear (y + 1) = daysToYear y + daysInYear y := by
  unfold daysToYear
  rw [show y + 1 - 1970 = (y - 1970) + 1 by omega, List.range'_concat,
    List.map_append, List.sum_append, show 1970 + 1 * (y - 1970) = y by omega]
  simp

lemma yearStartMs_lt_succ {y : Nat} (h : 1970 ≤ y) :
    yearStartMs y < yearStartMs (y + 1) := by
  have h1 : daysToYear y < daysToYear (y + 1) := by
    rw [daysToYear_succ h]
    have := daysInYear_pos y
    omega
  have h2 : (0 : Nat) < msPerDay := by decide
  exact Nat.mul_lt_mul_of_lt_of_le h1 (le_refl msPerDay) h2

end YearFacts

/-- C1: for an empty query result, `build_delta_frame` returns the empty
table without raising (line 46); `render_plot` on that empty table,
however, does not produce a one-panel chart: with zero category columns
`plt.subplots(nrows=1, ncols=1)` returns a single `Axes` object, which is
not a list or tuple, and `list(axes)` at line 90 raises `TypeError` before
any panel is drawn. -/
theorem c1_empty_result_behavior :
    buildDeltaFrame emptyDb 2026 = DeltaTable.empty ∧
      renderPlot DeltaTable.empty none = Except.error axesNotIterableMsg :=
  ⟨rfl, rfl⟩

/-- C2 counterexample: for per-day summed counts [5, 5, 8, 8, 8], derivation
steps 2–3 (running cumulative sum within the category followed by the
seeded day-over-day first difference, i.e. the `delta` column of lines
57–58) return [5, 5, 8, 8, 8] — cumulative sum and first difference
cancel — and not [5, 0, 3, 0, 0] as the claim states. -/
theorem c2_steps23_counterexample :
    deltaColOf c2Rows "granted" = [5, 5, 8, 8, 8] ∧
      deltaColOf c2Rows "granted" ≠ [5, 0, 3, 0, 0] := by
  decide

/-- C2 amended: on per-day summed counts [5, 5, 8, 8, 8] the steps-2–3
`delta` column equals the per-day sums unchanged, and the per-day totals
[5, 0, 3, 0, 0] are produced only after the step-5 table-wide difference:
the full pipeline yields exactly that single-category table. -/
theorem c2_pipeline_total :
    ((datesFor c2Rows "granted").map fun d => dailySum c2Rows d "granted") =
        [5, 5, 8, 8, 8] ∧
      deltaColOf c2Rows "granted" = [5, 5, 8, 8, 8] ∧
      (buildDeltaFromRows c2Rows).values = [[5], [0], [3], [0], [0]] := by
  decide

/-- C3 counterexample: on rows with data on day 0 (count 5) and day 2
(count 8) and nothing on day 1, the code (dense reindex only AFTER the
step-5 diff) yields column [5, 0, 3], while the claimed behaviour (dense
zero-filled daily grid BEFORE the step-5 diff, `buildDeltaDenseFirst`)
would yield [5, 0, 8]; the two disagree. -/
theorem c3_sparse_diff_counterexample :
    (buildDeltaFromRows c3Rows).values = [[5], [0], [3]] ∧
      (buildDeltaDenseFirst c3Rows).values = [[5], [0], [8]] ∧
      buildDeltaFromRows c3Rows ≠ buildDeltaDenseFirst c3Rows := by
  decide

/-- C3 amended: the step-5 difference is computed on the pivot's own
(sparse) date index: at the (i+1)-st day with data it subtracts the pivot
value of the i-th day with data — the previous day that happened to have
rows, not the previous calendar day — and days without raw rows are only
added afterwards, by `asfreq`, with value 0. -/
theorem c3_diff_on_pivot_index (rows : List QRow) (m : String) (i : Nat)
    (h : i + 1 < (allDates rows).length) :
    diffedCell rows ((allDates rows).getD (i + 1) 0) m =
        pivotCell rows ((allDates rows).getD (i + 1) 0) m -
          pivotCell rows ((allDates rows).getD i 0) m ∧
      ∀ d : Nat, d ∉ allDates rows → diffedCell rows d m = 0 := by
  constructor
  · have hi : i < (allDates rows).length := Nat.lt_of_succ_lt h
    have hmem : (allDates rows).getD (i + 1) 0 ∈ allDates rows := by
      rw [getD_eq_getElem _ _ h]
      exact List.getElem_mem h
    have hidx : (allDates rows).indexOf ((allDates rows).getD (i + 1) 0) = i + 1 := by
      rw [getD_eq_getElem _ _ h]
      exact List.indexOf_getElem (allDates_nodup rows) (i + 1) h
    unfold diffedCell
    rw [if_pos hmem, hidx]
    unfold stepCol
    rw [diffSeed_getD_succ _ i (by simpa using h),
      getD_map (fun d => pivotCell rows d m) (allDates rows) (i + 1) h 0 0,
      getD_map (fun d => pivotCell rows d m) (allDates rows) i hi 0 0]
  · intro d hd
    unfold diffedCell
    rw [if_neg hd]

/-- C3 amended, witness: on `c3Rows` (days 0 and 2 with data, day 1
without), the step-5 cell at the second data day subtracts the pivot value
of the first data day, and the data-free day 1 is 0 before clipping. -/
theorem c3_diff_on_pivot_index_witness :
    (diffedCell c3Rows ((allDates c3Rows).getD 1 0) "m" =
        pivotCell c3Rows ((allDates c3Rows).getD 1 0) "m" -
          pivotCell c3Rows ((allDates c3Rows).getD 0 0) "m") ∧
      diffedCell c3Rows 1 "m" = 0 :=
  ⟨(c3_diff_on_pivot_index c3Rows "m" 0 (by decide)).1,
    (c3_diff_on_pivot_index c3Rows "m" 0 (by decide)).2 1 (by decide)⟩

/-- C4: the round-trip regression fixture: the step-5 table-wide seeded
difference followed by the step-6 clipping, applied to a single column
with values [5, 0, 3, 0, 0], reproduces [5, 0, 3, 0, 0]. -/
theorem c4_roundtrip_fixture :
    tableDiffClip [5, 0, 3, 0, 0] = [5, 0, 3, 0, 0] := by
  decide

/-- C6: every cell of the delta table returned by `build_delta_frame` is
non-negative — the final `clip(lower=0)` (line 69) removes every negative
entry produced by the double differencing. -/
theorem c6_values_nonneg (db : Database) (year : Nat) :
    ∀ row ∈ (buildDeltaFrame db year).values, ∀ v ∈ row, 0 ≤ v := by
  intro row hrow v hv
  unfold buildDeltaFrame buildDeltaFromRows at hrow
  split at hrow
  · simp [DeltaTable.empty] at hrow
  · simp only [List.mem_map] at hrow
    obtain ⟨d, _, rfl⟩ := hrow
    simp only [List.mem_map] at hv
    obtain ⟨m, _, rfl⟩ := hv
    exact le_max_right _ _

/-- C6 witness: the first cell of the delta table of `sampleDb` for 2026
is non-negative, by the theorem applied at that concrete cell. -/
theorem c6_values_nonneg_witness :
    (0 : Int) ≤ ((buildDeltaFrame sampleDb 2026).values.getD 0 []).getD 0 0 :=
  c6_values_nonneg sampleDb 2026 ((buildDeltaFrame sampleDb 2026).values.getD 0 [])
    (by decide) (((buildDeltaFrame sampleDb 2026).values.getD 0 []).getD 0 0)
    (by decide)

lemma buildDeltaFromRows_eq (rows : List QRow) (h : rows ≠ []) :
    buildDeltaFromRows rows =
      ⟨List.range' ((allDates rows).headD 0)
          ((allDates rows).getLastD 0 + 1 - (allDates rows).headD 0),
        markersOf rows,
        (List.range' ((allDates rows).headD 0)
            ((allDates rows).getLastD 0 + 1 - (allDates rows).headD 0)).map
          fun d => (markersOf rows).map fun m => max (diffedCell rows d m) 0⟩ := by
  unfold buildDeltaFromRows
  rw [if_neg]
  simp [List.isEmpty_iff, h]

/-- C5: for a non-empty query result, the date index of the delta table has
no duplicates and contains a calendar day `d` exactly when `d` lies between
the smallest and the largest day bucket of the matched rows (phrased as the
existence of a lower and an upper bound among them) — no gaps, no
duplicates, no extra days — and every indexed day on which no raw row fell
carries an all-zero row of cells. -/
theorem c5_dense_index (db : Database) (year : Nat)
    (h : queryRows db year ≠ []) :
    (buildDeltaFrame db year).dates.Nodup ∧
      (∀ d : Nat, d ∈ (buildDeltaFrame db year).dates ↔
        ((∃ a ∈ (queryRows db year).map dayOf, a ≤ d) ∧
          (∃ b ∈ (queryRows db year).map dayOf, d ≤ b))) ∧
      (∀ i : Nat, i < (buildDeltaFrame db year).dates.length →
        (buildDeltaFrame db year).dates.getD i 0 ∉ (queryRows db year).map dayOf →
        (buildDeltaFrame db year).values.getD i [] =
          List.replicate (buildDeltaFrame db year).cols.length 0) := by
  have hEq : buildDeltaFrame db year = buildDeltaFromRows (queryRows db year) := rfl
  set rows := queryRows db year with hrows
  have hL : allDates rows ≠ [] := allDates_ne_nil h
  have hSorted := allDates_sorted rows
  set lo := (allDates rows).headD 0 with hlo
  set hi := (allDates rows).getLastD 0 with hhi
  have hloMem : lo ∈ allDates rows := headD_mem hL
  have hhiMem : hi ∈ allDates rows := getLastD_mem hL
  have hlo_le : ∀ x ∈ allDates rows, lo ≤ x := fun x hx =>
    headD_le_of_sorted hSorted hx
  have hle_hi : ∀ x ∈ allDates rows, x ≤ hi := fun x hx =>
    le_getLastD_of_sorted hSorted hx hL
  have hlohi : lo ≤ hi := hlo_le hi hhiMem
  rw [hEq, buildDeltaFromRows_eq rows h]
  refine ⟨List.nodup_range' _ _, fun d => ?_, fun i hlen hnotin => ?_⟩
  · constructor
    · intro hd
      have hd2 := List.mem_range'_1.1 hd
      exact ⟨⟨lo, mem_allDates.1 hloMem, hd2.1⟩,
        ⟨hi, mem_allDates.1 hhiMem, by omega⟩⟩
    · rintro ⟨⟨a, haMem, haLe⟩, ⟨b, hbMem, hbLe⟩⟩
      have ha : lo ≤ a := hlo_le a (mem_allDates.2 haMem)
      have hb : b ≤ hi := hle_hi b (mem_allDates.2 hbMem)
      exact List.mem_range'_1.2 ⟨by omega, by omega⟩
  · rw [getD_map _ _ i hlen 0 []]
    set d := (List.range' lo (hi + 1 - lo)).getD i 0 with hd
    have hdL : d ∉ allDates rows := fun hmem2 => hnotin (mem_allDates.1 hmem2)
    refine List.eq_replicate_iff.2 ⟨by simp, fun x hx => ?_⟩
    obtain ⟨m, _, rfl⟩ := List.mem_map.1 hx
    unfold diffedCell
    rw [if_neg hdL]
    simp

/-- C5 witness: for `sampleDb` in 2026 (rows on days 10 and 12, none on
day 11) the index is duplicate-free and the day-11 row is all zero. -/
theorem c5_dense_index_witness :
    (buildDeltaFrame sampleDb 2026).dates.Nodup ∧
      (buildDeltaFrame sampleDb 2026).values.getD 1 [] =
        List.replicate (buildDeltaFrame sampleDb 2026).cols.length 0 :=
  ⟨(c5_dense_index sampleDb 2026 (by decide)).1,
    (c5_dense_index sampleDb 2026 (by decide)).2.2 1 (by decide) (by decide)⟩

/-- C7: the year filter is the half-open window
`[yearStartMs year, yearStartMs (year+1))`: a joined row that passes the
fixed filters and is timestamped exactly at the start of the target year is
in the query result, and one timestamped exactly at the start of the next
year is not. -/
theorem c7_year_boundary (db : Database) (year : Nat) (hy : 1970 ≤ year)
    (r : QRow) (hmem : r ∈ joinRows db) (hcountry : r.country = 241)
    (hcase : r.case_type = "Ochrona międzynarodowa")
    (hinst : r.inst_id = 1516 ∨ r.inst_id = 810) :
    (r.ts = yearStartMs year → r ∈ queryRows db year) ∧
      (r.ts = yearStartMs (year + 1) → r ∉ queryRows db year) := by
  unfold queryRows
  constructor
  · intro hts
    refine List.mem_filter.2 ⟨hmem, ?_⟩
    have hlt := yearStartMs_lt_succ hy
    rcases hinst with h1 | h1 <;>
      simp [rowMatches, hts, hcountry, hcase, h1, hlt]
  · intro hts hmemQ
    have hp := (List.mem_filter.1 hmemQ).2
    simp [rowMatches, hts] at hp

/-- C7 witness: in `boundaryDb`, the row at the exact 2026 year-start
instant is matched for 2026 and the row at the exact 2027 year-start
instant is not. -/
theorem c7_year_boundary_witness :
    boundaryRowIn ∈ queryRows boundaryDb 2026 ∧
      boundaryRowOut ∉ queryRows boundaryDb 2026 :=
  ⟨(c7_year_boundary boundaryDb 2026 (by decide) boundaryRowIn (by decide) rfl rfl
      (Or.inl rfl)).1 rfl,
    (c7_year_boundary boundaryDb 2026 (by decide) boundaryRowOut (by decide) rfl rfl
      (Or.inl rfl)).2 rfl⟩

/-- C8 counterexample: for the empty delta table the renderer produces no
panel at all — `list(axes)` raises before any panel is created — so it is
not the case that the overview panel receives the y-bound when the table is
empty, contrary to the claim's "including when the table is empty". -/
theorem c8_empty_no_panels :
    renderPlot DeltaTable.empty (some "Decision marker daily (2026)") =
      Except.error axesNotIterableMsg := rfl

/-- C8 amended: whenever `render_plot` returns panels (i.e. the table has at
least one category column), it returns one overview panel plus one panel
per category, and every panel is given the same y-axis upper bound
`max(1, ceil(global max)) + 1`, which is never below 2 — including when all
cell values are zero; for the empty table the function instead raises
before creating panels. -/
theorem c8_uniform_panel_top (t : DeltaTable) (title : Option String)
    (ps : List Panel) (h : renderPlot t title = Except.ok ps) :
    ps.length = 1 + t.cols.length ∧
      ∀ p ∈ ps, p.ylimTop = max 1 (overallMax t) + 1 ∧ 2 ≤ p.ylimTop := by
  unfold renderPlot at h
  split at h
  · exact absurd h (by simp)
  · obtain rfl := Except.ok.inj h
    constructor
    · simp [Nat.add_comm]
    · intro p hp
      have htop : (1 : Int) ≤ max 1 (overallMax t) := le_max_left _ _
      rcases List.mem_cons.1 hp with rfl | hp2
      · exact ⟨rfl, by show (2 : Int) ≤ max 1 (overallMax t) + 1; omega⟩
      · obtain ⟨c, _, rfl⟩ := List.mem_map.1 hp2
        exact ⟨rfl, by show (2 : Int) ≤ max 1 (overallMax t) + 1; omega⟩

/-- A two-day, one-category delta table with maximum cell value 3. -/
def c8SampleTable : DeltaTable := ⟨[0, 1], ["granted"], [[3], [0]]⟩

/-- C8 amended, witness: rendering `c8SampleTable` yields two panels (one
overview, one category) whose shared top is `max(1, 3) + 1 = 4 ≥ 2`. -/
theorem c8_uniform_panel_top_witness :
    ([⟨some "x", 0, 4⟩, ⟨some "granted", 0, 4⟩] : List Panel).length =
        1 + c8SampleTable.cols.length ∧
      ((⟨some "granted", 0, 4⟩ : Panel).ylimTop =
          max 1 (overallMax c8SampleTable) + 1 ∧
        2 ≤ (⟨some "granted", 0, 4⟩ : Panel).ylimTop) :=
  ⟨(c8_uniform_panel_top c8SampleTable (some "x")
      [⟨some "x", 0, 4⟩, ⟨some "granted", 0, 4⟩] rfl).1,
    (c8_uniform_panel_top c8SampleTable (some "x")
      [⟨some "x", 0, 4⟩, ⟨some "granted", 0, 4⟩] rfl).2
      ⟨some "granted", 0, 4⟩ (by decide)⟩

lemma buildDeltaFromRows_cols (rows : List QRow) :
    (buildDeltaFromRows rows).cols =
      if rows.isEmpty then [] else markersOf rows := by
  unfold buildDeltaFromRows
  split <;> rfl

lemma markersOf_sorted_le (rows : List QRow) :
    (markersOf rows).Sorted (· ≤ ·) :=
  List.sorted_insertionSort _ _

lemma markersOf_perm (rows : List QRow) :
    List.Perm (markersOf rows) (rows.map (·.decision_marker)).dedup :=
  List.perm_insertionSort _ _

lemma markersOf_nodup (rows : List QRow) : (markersOf rows).Nodup :=
  ((markersOf_perm rows).nodup_iff).2 (List.nodup_dedup _)

lemma markersOf_sorted_lt (rows : List QRow) :
    (markersOf rows).Sorted (· < ·) :=
  (List.Pairwise.and (markersOf_sorted_le rows) (markersOf_nodup rows)).imp
    fun hab => lt_of_le_of_ne hab.1 hab.2

lemma markersOf_perm_eq {rows rows2 : List QRow}
    (hp : List.Perm rows2 rows) : markersOf rows2 = markersOf rows :=
  List.eq_of_perm_of_sorted
    ((markersOf_perm rows2).trans
      (((hp.map (·.decision_marker)).dedup).trans (markersOf_perm rows).symm))
    (markersOf_sorted_le rows2) (markersOf_sorted_le rows)

/-- C9: the category columns of the delta table are in strictly ascending
lexicographic order of the decision-marker label (the order the pandas
pivot produces), and they are the same for any reordering of the rows the
query returned. -/
theorem c9_sorted_columns (rows rows2 : List QRow)
    (hp : List.Perm rows2 rows) :
    (buildDeltaFromRows rows).cols.Sorted (· < ·) ∧
      (buildDeltaFromRows rows2).cols = (buildDeltaFromRows rows).cols := by
  constructor
  · rw [buildDeltaFromRows_cols]
    split
    · exact List.sorted_nil
    · exact markersOf_sorted_lt rows
  · rw [buildDeltaFromRows_cols, buildDeltaFromRows_cols]
    by_cases hnil : rows = []
    · have hnil2 : rows2 = [] := List.perm_nil.1 (hnil ▸ hp)
      simp [hnil, hnil2]
    · have hnil2 : rows2 ≠ [] := fun hh =>
        hnil (List.perm_nil.1 ((hh ▸ hp).symm))
      rw [if_neg (by simp [List.isEmpty_iff, hnil2]),
        if_neg (by simp [List.isEmpty_iff, hnil])]
      exact markersOf_perm_eq hp

/-- The rows of `c3Rows` listed in the opposite order. -/
def c9Rows2 : List QRow := [mkRow 172800000 8 "m", mkRow 0 5 "m"]

/-- C9 witness: on the concrete rows of `c3Rows` (and the same rows in
reversed query order, `c9Rows2`) the columns are sorted and identical. -/
theorem c9_sorted_columns_witness :
    (buildDeltaFromRows c3Rows).cols.Sorted (· < ·) ∧
      (buildDeltaFromRows c9Rows2).cols = (buildDeltaFromRows c3Rows).cols :=
  c9_sorted_columns c3Rows c9Rows2 (by decide)

/-- C10: noninterference of the `dataUpdated` flag: for two databases that
agree on everything except the `dataUpdated` values of their `updates`
rows, `build_delta_frame` returns identical delta tables for every year —
the flag is selected by the query but never used afterwards. -/
theorem c10_dataUpdated_noninterference (db1 db2 : Database)
    (hdec : db1.decisions = db2.decisions)
    (hupd : db1.updates.map scrubU = db2.updates.map scrubU)
    (hinst : db1.institutions = db2.institutions)
    (hcase : db1.caseTypes = db2.caseTypes)
    (hmark : db1.decisionMarkers = db2.decisionMarkers) (year : Nat) :
    buildDeltaFrame db1 year = buildDeltaFrame db2 year := by
  have hj : (joinRows db1).map scrub = (joinRows db2).map scrub := by
    rw [join_map_scrub, join_map_scrub, hdec, hupd, hinst, hcase, hmark]
  have hq : (queryRows db1 year).map scrub = (queryRows db2 year).map scrub := by
    unfold queryRows
    rw [← filter_map_scrub (joinRows db1)
        (rowMatches (yearStartMs year) (yearStartMs (year + 1))) fun _ => rfl,
      ← filter_map_scrub (joinRows db2)
        (rowMatches (yearStartMs year) (yearStartMs (year + 1))) fun _ => rfl, hj]
  unfold buildDeltaFrame
  rw [← buildDeltaFromRows_scrub (queryRows db1 year), hq,
    buildDeltaFromRows_scrub]

/-- C10 witness: `sampleDb` and `sampleDbFlipped` differ exactly in their
`dataUpdated` flags and produce the same delta table for 2026. -/
theorem c10_dataUpdated_noninterference_witness :
    buildDeltaFrame sampleDb 2026 = buildDeltaFrame sampleDbFlipped 2026 :=
  c10_dataUpdated_noninterference sampleDb sampleDbFlipped rfl rfl rfl rfl rfl 2026

end RenderBookPlot
